import Mathlib

/-!
# madness — a shallow embedding of the mDNS codec and service engine

This file embeds, in Lean, the DNS/mDNS wire codec and the multicast
service engine of the `madness` crate, and proves (or refutes) the
specification's claims about them.

Conventions of the embedding:

* Rust `Vec<u8>` buffers become `List Nat`, each element a byte value.
  Every `append_*` function of the source takes the buffer first and
  returns the extended buffer, mirroring `&mut Vec<u8>` by explicit
  state passing.
* Rust `&str` names become Lean `String`; `str::as_bytes` becomes
  `strBytes` (the names handled by the crate are ASCII, as the source
  itself asserts with `debug_assert!(name.is_ascii())`, so UTF-8 bytes
  and code points coincide on the inputs of interest).
* Machine integers become `Nat` with explicit `&&& 0xff` / `% 256`
  masks where the source casts; two's-complement tricks on `i16` are
  translated to their `u16` bit images.
* The in-place length-patching idiom of the source (reserve two bytes,
  write the payload, patch the length) is modelled by computing the
  payload bytes first and emitting the big-endian length before them;
  this is equivalent because every writer only appends to the buffer.
* `dns_parser::Packet::parse` is an external library collaborator; its
  outcome is modelled as an `Option ParsedPacket` argument.
* The `assert!` label-length preconditions of `append_qname` are codec
  precondition violations per the specification (§4.1, §7) and abort
  the process in the source; the embedding is total and is only ever
  evaluated on precondition-respecting inputs.
-/

/-- `str::as_bytes` for the ASCII names the crate handles: the byte list
of a string's characters. -/
def strBytes (s : String) : List Nat :=
  s.data.map Char.toNat

/-- Big-endian image of a `u16`, as pushed by `append_u16` in
`src/dns.rs` / `src/dns/mod.rs`: `(value >> 8) & 0xff` then `value & 0xff`. -/
def u16be (value : Nat) : List Nat :=
  [(value >>> 8) &&& 0xff, value &&& 0xff]

/-- `fn append_u16(out: &mut Vec<u8>, value: u16)`. -/
def append_u16 (out : List Nat) (value : Nat) : List Nat :=
  out ++ u16be value

/-- Big-endian image of a `u32`, as pushed by `append_u32`. -/
def u32be (value : Nat) : List Nat :=
  [(value >>> 24) &&& 0xff, (value >>> 16) &&& 0xff,
   (value >>> 8) &&& 0xff, value &&& 0xff]

/-- `fn append_u32(out: &mut Vec<u8>, value: u32)`. -/
def append_u32 (out : List Nat) (value : Nat) : List Nat :=
  out ++ u32be value

/-- The label sequence written by `append_qname`: the name's bytes are
split at each `b'.'` (byte 46); each label is written as its length
byte (`element.len() as u8`) followed by its bytes, and a terminating
zero byte closes the name.  The source's `assert!`s (label length < 64
and nonzero) are preconditions, see the header comment. -/
def qnameBytes (name : List Nat) : List Nat :=
  (((name.splitOn 46).map (fun element => (element.length % 256) :: element)).flatten) ++ [0]

/-- `fn append_qname(out: &mut Vec<u8>, name: &[u8])`. -/
def append_qname (out : List Nat) (name : List Nat) : List Nat :=
  out ++ qnameBytes name

/-- `fn duration_to_secs(duration: Duration) -> u32`: the second count,
rounded up when the sub-second part is nonzero, saturated at `u32::MAX`.
A `Duration` is passed as its `(as_secs, subsec_nanos)` pair. -/
def duration_to_secs (secs nanos : Nat) : Nat :=
  min (secs + (if 0 < nanos then 1 else 0)) 0xFFFFFFFF

/-- The 12-byte DNS packet header of `src/dns/header.rs` (the struct in
`src/dns.rs` is field-for-field identical).  All fields are `u16`. -/
structure PacketHeader where
  id : Nat
  flags : Nat
  qd_count : Nat
  an_count : Nat
  ns_count : Nat
  ar_count : Nat
  deriving DecidableEq

/-- `PacketHeader::default()`: every field zero. -/
def PacketHeader.default : PacketHeader :=
  ⟨0, 0, 0, 0, 0, 0⟩

/-- The `u16` image of `-(set as i16)`: all-ones when `set`, zero
otherwise.  This is the left operand of the XOR in every boolean flag
setter of the source. -/
def negMask (set : Bool) : Nat :=
  if set then 0xFFFF else 0

/-- `PacketHeader::set_query` (header.rs):
`self.flags = ((-(!set as i16) ^ self.flags as i16) & (1 << 15)) as u16`. -/
def PacketHeader.set_query (h : PacketHeader) (set : Bool) : PacketHeader :=
  { h with flags := (negMask (!set) ^^^ h.flags) &&& (1 <<< 15) }

/-- `PacketHeader::is_query`: `self.flags & 1 << 15 != 0`. -/
def PacketHeader.is_query (h : PacketHeader) : Bool :=
  h.flags &&& (1 <<< 15) != 0

/-- `PacketHeader::set_qr` (dns.rs):
`self.flags = ((-(set as i16) ^ self.flags as i16) & (1 << 15)) as u16`. -/
def PacketHeader.set_qr (h : PacketHeader) (set : Bool) : PacketHeader :=
  { h with flags := (negMask set ^^^ h.flags) &&& (1 <<< 15) }

/-- `PacketHeader::qr` (dns.rs): `self.flags & 1 << 15 != 0`. -/
def PacketHeader.qr (h : PacketHeader) : Bool :=
  h.flags &&& (1 <<< 15) != 0

/-- `PacketHeader::set_aa`:
`self.flags = ((-(set as i16) ^ self.flags as i16) & (1 << 10)) as u16`. -/
def PacketHeader.set_aa (h : PacketHeader) (set : Bool) : PacketHeader :=
  { h with flags := (negMask set ^^^ h.flags) &&& (1 <<< 10) }

/-- `PacketHeader::aa`: `self.flags & 1 << 10 != 0`. -/
def PacketHeader.aa (h : PacketHeader) : Bool :=
  h.flags &&& (1 <<< 10) != 0

/-- `PacketHeader::set_tc`: same shape with bit 9. -/
def PacketHeader.set_tc (h : PacketHeader) (set : Bool) : PacketHeader :=
  { h with flags := (negMask set ^^^ h.flags) &&& (1 <<< 9) }

/-- `PacketHeader::tc`: `self.flags & 1 << 9 != 0`. -/
def PacketHeader.tc (h : PacketHeader) : Bool :=
  h.flags &&& (1 <<< 9) != 0

/-- `PacketHeader::set_rd`: same shape with bit 8. -/
def PacketHeader.set_rd (h : PacketHeader) (set : Bool) : PacketHeader :=
  { h with flags := (negMask set ^^^ h.flags) &&& (1 <<< 8) }

/-- `PacketHeader::rd`: `self.flags & 1 << 8 != 0`. -/
def PacketHeader.rd (h : PacketHeader) : Bool :=
  h.flags &&& (1 <<< 8) != 0

/-- `PacketHeader::set_ra`: same shape with bit 7. -/
def PacketHeader.set_ra (h : PacketHeader) (set : Bool) : PacketHeader :=
  { h with flags := (negMask set ^^^ h.flags) &&& (1 <<< 7) }

/-- `PacketHeader::ra`: `self.flags & 1 << 7 != 0`. -/
def PacketHeader.ra (h : PacketHeader) : Bool :=
  h.flags &&& (1 <<< 7) != 0

/-- `PacketHeader::append_bytes`: the six `u16` fields in order. -/
def PacketHeader.append_bytes (h : PacketHeader) (out : List Nat) : List Nat :=
  append_u16 (append_u16 (append_u16 (append_u16 (append_u16 (append_u16
    out h.id) h.flags) h.qd_count) h.an_count) h.ns_count) h.ar_count

/-- `dns/rdata/txt.rs`, `impl AppendBytes for Record`: reserves two
bytes, then for each entry pushes `entry.len() as u8` followed by
`append_qname(out, entry.as_bytes())`, and patches the reserved bytes
with the big-endian byte count written after them. -/
def txt_record_append_bytes (entries : List String) (out : List Nat) : List Nat :=
  let body := entries.foldl
    (fun acc entry => append_qname (acc ++ [(strBytes entry).length % 256]) (strBytes entry)) []
  out ++ u16be body.length ++ body

/-- `dns_parser::Class`, used by `ResourceRecord`: IN = 1, CS = 2,
CH = 3, HS = 4. -/
inductive DnsClass where
  | IN
  | CS
  | CH
  | HS
  deriving DecidableEq

/-- `class as u16`. -/
def DnsClass.code : DnsClass → Nat
  | .IN => 1
  | .CS => 2
  | .CH => 3
  | .HS => 4

/-- `RData` of `src/dns/resource_record.rs`: the tagged record-data
variants.  IPv4 addresses are their `u32` value, IPv6 their `u128`. -/
inductive RData where
  | a (addr : Nat)
  | aaaa (addr : Nat)
  | ptr (name : String)
  | srv (port : Nat) (weight : Nat) (priority : Nat) (target : String)
  | txt (entries : List String)
  deriving DecidableEq

/-- `RData::code`: the per-variant `TYPE` constants of `dns/rdata/`. -/
def RData.code : RData → Nat
  | .a _ => 1
  | .aaaa _ => 28
  | .ptr _ => 12
  | .srv _ _ _ _ => 33
  | .txt _ => 16

/-- The 16 big-endian bytes of `u128::to_be_bytes`, pushed by the AAAA
record writer. -/
def u128be (value : Nat) : List Nat :=
  (List.range 16).map (fun i => (value >>> (8 * (15 - i))) &&& 0xff)

/-- `impl AppendBytes for RData` dispatching to the per-variant
writers of `dns/rdata/{a,aaaa,ptr,srv,txt}.rs`.  SRV writes priority,
weight, port, then the uncompressed target name. -/
def RData.append_bytes (data : RData) (out : List Nat) : List Nat :=
  match data with
  | .a addr => append_u32 out addr
  | .aaaa addr => out ++ u128be addr
  | .ptr name => append_qname out (strBytes name)
  | .srv port weight priority target =>
      append_qname (append_u16 (append_u16 (append_u16 out priority) weight) port)
        (strBytes target)
  | .txt entries => txt_record_append_bytes entries out

/-- `fn append_data` of `resource_record.rs`: reserve two bytes, write
the RDATA, patch the reserved bytes with the RDATA length. -/
def append_data (out : List Nat) (data : RData) : List Nat :=
  let body := data.append_bytes []
  out ++ u16be body.length ++ body

/-- `ResourceRecord` of `resource_record.rs`.  The `Duration` ttl is
carried as its `(as_secs, subsec_nanos)` pair; `class` is spelled `cls`
because `class` is a Lean keyword. -/
structure ResourceRecord where
  name : String
  ttl_secs : Nat
  ttl_nanos : Nat
  cls : DnsClass
  data : RData
  deriving DecidableEq

/-- `impl AppendBytes for ResourceRecord`: name, type code, class,
TTL seconds, then the length-framed RDATA. -/
def ResourceRecord.append_bytes (rr : ResourceRecord) (out : List Nat) : List Nat :=
  append_data
    (append_u32
      (append_u16
        (append_u16
          (append_qname out (strBytes rr.name))
          rr.data.code)
        rr.cls.code)
      (duration_to_secs rr.ttl_secs rr.ttl_nanos))
    rr.data

/-- `dns_parser::QueryType::PTR as u16`. -/
def QueryTypePTR : Nat := 12

/-- `dns_parser::QueryClass::IN as u16`. -/
def QueryClassIN : Nat := 1

/-- `Question` of `src/dns/packet.rs`. -/
structure Question where
  name : String
  prefer_unicast : Bool
  qtype : Nat
  qclass : Nat
  deriving DecidableEq

/-- `impl AppendBytes for Question` (packet.rs): qname, qtype, qclass.
Note that `prefer_unicast` is not consulted, exactly as in the source,
which never ORs `0x8000` into the class field. -/
def Question.append_bytes (q : Question) (out : List Nat) : List Nat :=
  append_u16 (append_u16 (append_qname out (strBytes q.name)) q.qtype) q.qclass

/-- `PacketBuilder` of `src/dns/packet.rs`. -/
structure PacketBuilder where
  header : PacketHeader
  questions : List Question
  answers : List ResourceRecord

/-- `PacketBuilder::new`: default header, empty sections. -/
def PacketBuilder.new : PacketBuilder :=
  ⟨PacketHeader.default, [], []⟩

/-- `PacketBuilder::add_question`: pushes the question and increments
the `u16` field `header.qd_count`; the increment wraps at `2^16`
(release-mode Rust semantics), modelled with `% 65536`. -/
def PacketBuilder.add_question (b : PacketBuilder) (prefer_unicast : Bool)
    (name : String) (qclass qtype : Nat) : PacketBuilder :=
  { b with
    questions := b.questions ++ [⟨name, prefer_unicast, qtype, qclass⟩]
    header := { b.header with qd_count := (b.header.qd_count + 1) % 65536 } }

/-- `PacketBuilder::add_answer`: pushes the answer and increments the
`u16` field `header.an_count`; the increment wraps at `2^16`
(release-mode Rust semantics), modelled with `% 65536`. -/
def PacketBuilder.add_answer (b : PacketBuilder) (answer : ResourceRecord) : PacketBuilder :=
  { b with
    answers := b.answers ++ [answer]
    header := { b.header with an_count := (b.header.an_count + 1) % 65536 } }

/-- `PacketBuilder::build`: header bytes, then each question, then each
answer, in insertion order. -/
def PacketBuilder.build (b : PacketBuilder) : List Nat :=
  b.answers.foldl (fun acc a => a.append_bytes acc)
    (b.questions.foldl (fun acc q => q.append_bytes acc)
      (b.header.append_bytes []))

/-- The string buffer the legacy TXT writer would emit as RDATA when no
entry is oversized: the entry loop's buffer, replaced by a single zero
byte when empty. -/
def txt_rdata_unchecked (entries : List String) : List Nat :=
  let buffer := entries.foldl
    (fun acc entry => append_qname (acc ++ [(strBytes entry).length % 256]) (strBytes entry)) []
  if buffer.isEmpty then [0] else buffer

/-- `META_QUERY_SERVICE` of `src/lib.rs`. -/
def META_QUERY_SERVICE : String := "_services._dns-sd._udp.local"

/-- The engine's view of a successfully parsed inbound datagram
(`dns_parser::Packet`): the QR classification (`header.query`, true for
a query), the transaction id, the question names
(`q.qname.to_string()` for each question), and the number of answer
records (their content is opaque to the engine's classification). -/
structure ParsedPacket where
  query : Bool
  id : Nat
  questions : List String
  answers : Nat
  deriving DecidableEq

/-- `MdnsPacket` of `src/service.rs`: the classified events surfaced by
`next()`.  `MdnsQuery` carries the service name, the source address
(modelled as an opaque `Nat` identifier) and the packet id;
`MdnsServiceDiscovery` the source address and packet id;
`MdnsPacket::Response` the parsed packet it was built from. -/
inductive MdnsPacket where
  | query (service_name : String) (origin : Nat) (query_id : Nat)
  | serviceDiscovery (origin : Nat) (query_id : Nat)
  | response (packet : ParsedPacket)
  deriving DecidableEq

/-- The closure inside `parse_mdns_packets`'s `filter_map` over the
question list: a question whose name is in the advertised set becomes a
`Query` event; otherwise, a question for the meta service becomes a
`ServiceDiscovery` event; every other question is dropped. -/
def classify_question (advertized : List String) (origin : Nat) (query_id : Nat)
    (qname : String) : Option MdnsPacket :=
  if advertized.contains qname then some (.query qname origin query_id)
  else if qname == META_QUERY_SERVICE then some (.serviceDiscovery origin query_id)
  else none

/-- `MdnsService::parse_mdns_packets`: a parse failure yields the empty
event list; a parsed query packet yields the filter-mapped question
list; a parsed non-query packet yields one `Response` event per answer
record.  The advertised `HashSet<String>` is modelled as the list of
its members. -/
def parse_mdns_packets (advertized : List String) (parsed : Option ParsedPacket)
    (origin : Nat) : List MdnsPacket :=
  match parsed with
  | none => []
  | some p =>
      if p.query then p.questions.filterMap (classify_question advertized origin p.id)
      else List.replicate p.answers (.response p)

/-- The query packet built in `next()` when the discovery scheduler
yields a service name: a fresh builder, `add_question(true, name,
QueryClass::IN, QueryType::PTR)`, then `build()`. -/
def scheduler_fire_packet (service_name : String) : List Nat :=
  (PacketBuilder.new.add_question true service_name QueryClassIN QueryTypePTR).build

/-- The effect of a scheduler tick on the query-socket send queue:
`self.query_send_buffers.push(query)`. -/
def scheduler_fire (query_send_buffers : List (List Nat)) (service_name : String) :
    List (List Nat) :=
  query_send_buffers ++ [scheduler_fire_packet service_name]

/-- The branch taken by the `select` inside `next()`: a successful
receive (with the parse outcome of the received bytes and the source
address), a receive error, or a value from the discovery scheduler
channel. -/
inductive SelectBranch where
  | inboundOk (parsed : Option ParsedPacket) (origin : Nat)
  | inboundErr
  | sched (service_name : Option String)
  deriving DecidableEq

/-- What one iteration of `next()`'s loop does after the `select`:
either `next()` returns with an event list, or the loop continues with
a (possibly extended) query send queue. -/
inductive NextOutcome where
  | ret (events : List MdnsPacket)
  | loop (query_send_buffers : List (List Nat))
  deriving DecidableEq

/-- One iteration of the loop in `MdnsService::next` after the send
queues are drained: a successful receive returns
`parse_mdns_packets(..)` unconditionally (even when the list is empty);
a receive error continues the loop; a scheduler name builds and
enqueues a discovery query and continues; a closed scheduler channel
continues. -/
def next_iteration (advertized : List String) (query_send_buffers : List (List Nat)) :
    SelectBranch → NextOutcome
  | .inboundOk parsed origin => .ret (parse_mdns_packets advertized parsed origin)
  | .inboundErr => .loop query_send_buffers
  | .sched (some service_name) => .loop (scheduler_fire query_send_buffers service_name)
  | .sched none => .loop query_send_buffers

/-- The state of the subscription's oneshot cancellation channel as
seen by the ticker task at a tick: a value was sent on it, it is empty
with the sender (the `ServiceDiscovery` handle) still alive, or the
sender was dropped. -/
inductive OneshotState where
  | value
  | empty
  | closed
  deriving DecidableEq

/-- `oneshot::Receiver::try_recv` viewed through `Option`: `Ok(())`
only when a value was sent; `Err(TryRecvError::Empty)` while the sender
is held, `Err(TryRecvError::Closed)` after it is dropped — both mapped
to `none`, exactly the distinction the ticker's `match` makes. -/
def oneshot_try_recv : OneshotState → Option Unit
  | .value => some ()
  | .empty => none
  | .closed => none

/-- One iteration of the ticker loop spawned by `MdnsService::discover`,
after `interval.tick()` completes: the `match orx.try_recv()` sends the
service name on the scheduler channel and keeps looping in its `Ok`
arm, and breaks out of the loop in its `Err` arm.  The result is
`(sent, continues)`. -/
def ticker_tick (s : OneshotState) : Bool × Bool :=
  match oneshot_try_recv s with
  | some _ => (true, true)
  | none => (false, false)

/-- The number of times the ticker enqueues the service name over a
trace of oneshot states observed at successive ticks: it accumulates
sends while the tick continues and stops at the first break. -/
def ticker_sends : List OneshotState → Nat
  | [] => 0
  | s :: rest =>
      match ticker_tick s with
      | (true, true) => 1 + ticker_sends rest
      | (true, false) => 1
      | (false, _) => 0

/-- The 16-bit value at the class position of a serialised
`ResourceRecord`: the record's bytes start with the encoded name and
the two type-code bytes, so the class field occupies the next two
bytes; they are read back as a big-endian `u16`. -/
def emittedClassField (rr : ResourceRecord) : Nat :=
  (rr.append_bytes []).getD ((qnameBytes (strBytes rr.name)).length + 2) 0 * 256 +
    (rr.append_bytes []).getD ((qnameBytes (strBytes rr.name)).length + 3) 0

/-- One call against a `PacketBuilder`: either `add_question` (with its
argument list) or `add_answer`. -/
inductive BuilderOp where
  | question (prefer_unicast : Bool) (name : String) (qclass qtype : Nat)
  | answer (rr : ResourceRecord)

/-- Runs a sequence of `add_question` / `add_answer` calls against a
builder, left to right. -/
def applyOps (b : PacketBuilder) : List BuilderOp → PacketBuilder
  | [] => b
  | .question pu n qc qt :: rest => applyOps (b.add_question pu n qc qt) rest
  | .answer rr :: rest => applyOps (b.add_answer rr) rest

/-- The questions a call sequence adds, in call order. -/
def opsQuestions (ops : List BuilderOp) : List Question :=
  ops.filterMap fun op =>
    match op with
    | .question pu n qc qt => some ⟨n, pu, qt, qc⟩
    | .answer _ => none

/-- The answers a call sequence adds, in call order. -/
def opsAnswers (ops : List BuilderOp) : List ResourceRecord :=
  ops.filterMap fun op =>
    match op with
    | .question _ _ _ _ => none
    | .answer rr => some rr

/-! ## Helper lemmas -/

theorem question_append_bytes_eq (q : Question) (out : List Nat) :
    q.append_bytes out = out ++ q.append_bytes [] := by
  simp [Question.append_bytes, append_u16, append_qname]

theorem rdata_append_bytes_eq (d : RData) (out : List Nat) :
    d.append_bytes out = out ++ d.append_bytes [] := by
  cases d <;>
    simp [RData.append_bytes, append_u32, append_u16, append_qname,
      txt_record_append_bytes]

theorem resource_record_append_bytes_eq (rr : ResourceRecord) (out : List Nat) :
    rr.append_bytes out = out ++ rr.append_bytes [] := by
  simp [ResourceRecord.append_bytes, append_data, append_u32, append_u16, append_qname]

theorem packet_header_append_bytes_eq (h : PacketHeader) (out : List Nat) :
    h.append_bytes out = out ++ h.append_bytes [] := by
  simp [PacketHeader.append_bytes, append_u16]

theorem foldl_append_bytes_eq {α : Type} (f : α → List Nat → List Nat)
    (hf : ∀ x out, f x out = out ++ f x []) (l : List α) :
    ∀ buf : List Nat,
      l.foldl (fun acc x => f x acc) buf = buf ++ (l.map fun x => f x []).flatten := by
  induction l with
  | nil => simp
  | cons x xs ih =>
      intro buf
      simp only [List.foldl_cons, List.map_cons, List.flatten_cons, ih, hf x buf,
        List.append_assoc]

theorem PacketBuilder.build_eq (b : PacketBuilder) :
    b.build = b.header.append_bytes []
      ++ (b.questions.map fun q => q.append_bytes []).flatten
      ++ (b.answers.map fun a => a.append_bytes []).flatten := by
  unfold PacketBuilder.build
  rw [foldl_append_bytes_eq (fun q out => Question.append_bytes q out)
        question_append_bytes_eq,
      foldl_append_bytes_eq (fun a out => ResourceRecord.append_bytes a out)
        resource_record_append_bytes_eq,
      List.append_assoc]

theorem applyOps_spec (ops : List BuilderOp) :
    ∀ b : PacketBuilder, b.header.qd_count < 65536 → b.header.an_count < 65536 →
      (applyOps b ops).questions = b.questions ++ opsQuestions ops
      ∧ (applyOps b ops).answers = b.answers ++ opsAnswers ops
      ∧ (applyOps b ops).header.qd_count
          = (b.header.qd_count + (opsQuestions ops).length) % 65536
      ∧ (applyOps b ops).header.an_count
          = (b.header.an_count + (opsAnswers ops).length) % 65536 := by
  induction ops with
  | nil =>
      intro b hqd han
      refine ⟨by simp [applyOps, opsQuestions], by simp [applyOps, opsAnswers], ?_, ?_⟩
      · simp [applyOps, opsQuestions]; omega
      · simp [applyOps, opsAnswers]; omega
  | cons op rest ih =>
      intro b hqd han
      cases op with
      | question pu n qc qt =>
          have hqd2 : (b.add_question pu n qc qt).header.qd_count < 65536 := by
            simp [PacketBuilder.add_question]; omega
          have han2 : (b.add_question pu n qc qt).header.an_count < 65536 := by
            simpa [PacketBuilder.add_question] using han
          obtain ⟨hq, ha, hqdr, hanr⟩ := ih (b.add_question pu n qc qt) hqd2 han2
          have e1 : applyOps b (.question pu n qc qt :: rest)
              = applyOps (b.add_question pu n qc qt) rest := rfl
          have e2 : opsQuestions (.question pu n qc qt :: rest)
              = ⟨n, pu, qt, qc⟩ :: opsQuestions rest := rfl
          have e3 : opsAnswers (.question pu n qc qt :: rest) = opsAnswers rest := rfl
          rw [e1, e2, e3]
          refine ⟨?_, ?_, ?_, ?_⟩
          · rw [hq]; simp [PacketBuilder.add_question]
          · rw [ha]; simp [PacketBuilder.add_question]
          · rw [hqdr]; simp [PacketBuilder.add_question]; omega
          · rw [hanr]; simp [PacketBuilder.add_question]
      | answer rr =>
          have hqd2 : (b.add_answer rr).header.qd_count < 65536 := by
            simpa [PacketBuilder.add_answer] using hqd
          have han2 : (b.add_answer rr).header.an_count < 65536 := by
            simp [PacketBuilder.add_answer]; omega
          obtain ⟨hq, ha, hqdr, hanr⟩ := ih (b.add_answer rr) hqd2 han2
          have e1 : applyOps b (.answer rr :: rest)
              = applyOps (b.add_answer rr) rest := rfl
          have e2 : opsQuestions (.answer rr :: rest) = opsQuestions rest := rfl
          have e3 : opsAnswers (.answer rr :: rest) = rr :: opsAnswers rest := rfl
          rw [e1, e2, e3]
          refine ⟨?_, ?_, ?_, ?_⟩
          · rw [hq]; simp [PacketBuilder.add_answer]
          · rw [ha]; simp [PacketBuilder.add_answer]
          · rw [hqdr]; simp [PacketBuilder.add_answer]
          · rw [hanr]; simp [PacketBuilder.add_answer]; omega

theorem filterMap_classify (S : List String) (o i : Nat) :
    ∀ qs : List String,
      qs.filterMap (classify_question S o i) =
        (qs.filter fun q => S.contains q || q == META_QUERY_SERVICE).map
          (fun q => if S.contains q then MdnsPacket.query q o i
                    else MdnsPacket.serviceDiscovery o i) := by
  intro qs
  induction qs with
  | nil => rfl
  | cons q rest ih =>
      cases hq : S.contains q with
      | true =>
          have hc : classify_question S o i q = some (MdnsPacket.query q o i) := by
            unfold classify_question; rw [if_pos hq]
          rw [List.filterMap_cons_some hc, List.filter_cons]
          rw [hq, Bool.true_or, if_pos rfl]
          simp only [List.map_cons]
          rw [if_pos hq, ih]
      | false =>
          have hq' : ¬(S.contains q = true) := by rw [hq]; simp
          cases hm : (q == META_QUERY_SERVICE) with
          | true =>
              have hc : classify_question S o i q
                  = some (MdnsPacket.serviceDiscovery o i) := by
                unfold classify_question; rw [if_neg hq', if_pos hm]
              rw [List.filterMap_cons_some hc, List.filter_cons]
              rw [hq, hm, Bool.false_or, if_pos rfl]
              simp only [List.map_cons]
              rw [if_neg hq', ih]
          | false =>
              have hc : classify_question S o i q = none := by
                unfold classify_question
                rw [if_neg hq', if_neg (by rw [hm]; simp)]
              rw [List.filterMap_cons_none hc, List.filter_cons]
              rw [hq, hm, Bool.false_or, if_neg (by simp)]
              exact ih

theorem getD_append_length (l1 l2 : List Nat) :
    (l1 ++ l2).getD l1.length 0 = l2.getD 0 0 := by
  rw [List.getD_append_right _ _ _ _ (le_refl _), Nat.sub_self]

theorem getD_append_length_succ (l1 l2 : List Nat) :
    (l1 ++ l2).getD (l1.length + 1) 0 = l2.getD 1 0 := by
  rw [List.getD_append_right _ _ _ _ (Nat.le_add_right _ _), Nat.add_sub_cancel_left]

/-! ## The claims -/

/-- C1: the claim states that every tick of a held subscription
enqueues the subscribed name on the scheduler channel until the handle
is dropped.  The ticker's `match orx.try_recv()` sends only in its `Ok`
arm and breaks in its `Err` arm; while the caller merely holds the
handle (and nothing is ever sent on the oneshot channel), `try_recv`
yields `Err(TryRecvError::Empty)`, so the very first tick takes the
`Err` arm: nothing is enqueued and the ticker task exits.  Over a trace
of three ticks with the handle held throughout, zero names are sent. -/
theorem C1_ticker_never_fires_while_held :
    ticker_tick OneshotState.empty = (false, false)
    ∧ ticker_sends [OneshotState.empty, OneshotState.empty, OneshotState.empty] = 0
    ∧ ticker_tick OneshotState.closed = (false, false) := by
  decide

/-- C2: the boolean flag setters are claimed idempotent, bit-local and
value-independent.  The code's setters assign
`flags = (-(set) ^ flags) & mask` (the well-known branchless idiom minus
its `^=`), which instead toggles the target bit and zeroes every other
flag bit.  Evaluated at the failing inputs: starting from a default
header, `set_aa(true)` applied twice leaves `aa` clear although one
application sets it; and after `set_rd(true)`, the call `set_aa(false)`
clears the unrelated RD bit.  The same holds for the query/response
toggle of dns.rs. -/
theorem C2_flag_setters_violate_idempotence :
    ((PacketHeader.default.set_aa true).set_aa true).aa = false
    ∧ (PacketHeader.default.set_aa true).aa = true
    ∧ ((PacketHeader.default.set_rd true).set_aa false).rd = false
    ∧ (PacketHeader.default.set_rd true).rd = true
    ∧ ((PacketHeader.default.set_qr true).set_qr true).qr = false
    ∧ (PacketHeader.default.set_qr true).qr = true := by
  decide


/-- C3: for a parsed query packet, the engine yields one event per
question whose name is in the advertised set or equals the
meta-service name, in packet order (advertised names as `Query`
entries, the meta name as `ServiceDiscovery`), and the event list —
empty when no question matches — is returned by `next()`'s receive
branch unconditionally rather than suppressed. -/
theorem C3_engine_filter (S : List String) (p : ParsedPacket) (origin : Nat)
    (hq : p.query = true) :
    parse_mdns_packets S (some p) origin =
      (p.questions.filter fun q => S.contains q || q == META_QUERY_SERVICE).map
        (fun q => if S.contains q then MdnsPacket.query q origin p.id
                  else MdnsPacket.serviceDiscovery origin p.id)
    ∧ ∀ qsb : List (List Nat),
        next_iteration S qsb (.inboundOk (some p) origin) =
          .ret (parse_mdns_packets S (some p) origin) := by
  refine ⟨?_, fun qsb => rfl⟩
  simp only [parse_mdns_packets]
  rw [if_pos hq, filterMap_classify]

/-- C3 witness: a query packet with one advertised question, one
unmatched question and one meta-service question, against the
advertised set containing only the first, yields exactly the `Query`
entry for the first and the `ServiceDiscovery` entry for the meta
question, in packet order. -/
theorem C3_engine_filter_witness :
    parse_mdns_packets ["_a._tcp.local"]
        (some ⟨true, 7, ["_a._tcp.local", "_b._tcp.local", META_QUERY_SERVICE], 0⟩) 3 =
      [MdnsPacket.query "_a._tcp.local" 3 7, MdnsPacket.serviceDiscovery 3 7] :=
  ((C3_engine_filter ["_a._tcp.local"]
    ⟨true, 7, ["_a._tcp.local", "_b._tcp.local", META_QUERY_SERVICE], 0⟩ 3 rfl).1).trans
    (by decide)

/-- C4: the claim (with the spec's scenario S4) expects the TXT RDATA
`07 66 6F 6F 3D 62 61 72 07 62 61 7A 3D 71 75 78 06 66 6F 6F 62 61 72`
— one length byte then the raw entry bytes, per entry.  The code
instead writes, for each entry, its length byte followed by the entry
encoded as a DNS qname (an extra label-length byte and a trailing zero
byte), and the `dns/rdata/txt.rs` writer additionally prefixes the
whole RDATA with a spurious 2-byte inner length; an empty entry list
yields `00 00` there instead of a single zero byte.  Evaluated at the
spec's own entries: the emitted bytes, the legacy `append_txt_record`
string buffer, and their divergence from the spec's expected RDATA. -/
theorem C4_txt_rdata_diverges :
    txt_record_append_bytes ["foo=bar", "baz=qux", "foobar"] [] =
      [0, 29, 7, 7, 102, 111, 111, 61, 98, 97, 114, 0,
       7, 7, 98, 97, 122, 61, 113, 117, 120, 0, 6, 6, 102, 111, 111, 98, 97, 114, 0]
    ∧ txt_rdata_unchecked ["foo=bar", "baz=qux", "foobar"] =
      [7, 7, 102, 111, 111, 61, 98, 97, 114, 0,
       7, 7, 98, 97, 122, 61, 113, 117, 120, 0, 6, 6, 102, 111, 111, 98, 97, 114, 0]
    ∧ txt_rdata_unchecked ["foo=bar", "baz=qux", "foobar"] ≠
      [7, 102, 111, 111, 61, 98, 97, 114, 7, 98, 97, 122, 61, 113, 117, 120,
       6, 102, 111, 111, 98, 97, 114]
    ∧ txt_record_append_bytes [] [] = [0, 0] := by
  decide

/-- C5 counterexample: an `IN`-class A record (a unique-record
variant) is serialised with class field `0x0001`: the cache-flush bit
`0x8000` is not set, refuting the claim that every unique-record answer
carries it. -/
theorem C5_counterexample :
    emittedClassField ⟨"x.local", 4500, 0, DnsClass.IN, RData.a 0xC0A81F4E⟩ = 1
    ∧ emittedClassField ⟨"x.local", 4500, 0, DnsClass.IN, RData.a 0xC0A81F4E⟩ &&& 0x8000 = 0 := by
  decide

/-- C5 amended: `ResourceRecord::append_bytes` emits the class field
exactly as the record's class code, for every record and data variant:
no cache-flush bit is OR'd in, so the emitted 16-bit class field never
has bit `0x8000` set.  (In the legacy `Answer` serialiser of dns.rs,
only the TXT writer — and the PTR writer, a shared record — hard-codes
the bit.) -/
theorem C5_class_field_emitted_unchanged (rr : ResourceRecord) :
    emittedClassField rr = rr.cls.code
    ∧ emittedClassField rr &&& 0x8000 = 0 := by
  have hdecomp : rr.append_bytes []
      = (qnameBytes (strBytes rr.name) ++ u16be rr.data.code)
        ++ (u16be rr.cls.code
          ++ (u32be (duration_to_secs rr.ttl_secs rr.ttl_nanos)
            ++ (u16be (rr.data.append_bytes []).length ++ rr.data.append_bytes []))) := by
    simp [ResourceRecord.append_bytes, append_data, append_u16, append_u32, append_qname]
  have hlen2 : (qnameBytes (strBytes rr.name)).length + 2
      = (qnameBytes (strBytes rr.name) ++ u16be rr.data.code).length := by
    simp [u16be]
  have hlen3 : (qnameBytes (strBytes rr.name)).length + 3
      = (qnameBytes (strBytes rr.name) ++ u16be rr.data.code).length + 1 := by
    simp [u16be]
  have h1 : emittedClassField rr = rr.cls.code := by
    unfold emittedClassField
    rw [hdecomp, hlen2, hlen3, getD_append_length, getD_append_length_succ]
    cases rr.cls <;> simp [u16be, DnsClass.code] <;> decide
  exact ⟨h1, by rw [h1]; cases rr.cls <;> decide⟩

/-- C6 counterexample: a received datagram whose bytes fail to parse
(`Packet::parse` returns `Err`, modelled as `none`) makes the iteration
of `next()` return — with an empty event list — rather than continue
its receive loop, refuting the claim that the loop continues and that
`next()` returns only for a datagram that parses. -/
theorem C6_counterexample :
    next_iteration [] [] (.inboundOk none 0) = .ret []
    ∧ NextOutcome.ret ([] : List MdnsPacket) ≠ NextOutcome.loop ([] : List (List Nat)) :=
  ⟨rfl, by decide⟩

/-- C6 amended: an inbound datagram that fails to parse is dropped
silently in the sense that no error and no event surface —
`parse_mdns_packets` yields the empty list — but `next()` then returns
that empty list instead of continuing its receive loop (so a return
from `next()` does not imply the datagram parsed); only a receive
*error* on the socket continues the loop. -/
theorem C6_parse_failure_returns_empty (S : List String) (qsb : List (List Nat))
    (origin : Nat) :
    next_iteration S qsb (.inboundOk none origin) = .ret []
    ∧ next_iteration S qsb .inboundErr = .loop qsb :=
  ⟨rfl, rfl⟩

/-- C7 counterexample: the discovery query built for service name "x":
the last two bytes are the emitted class field of its single question,
`00 01` — the prefer-unicast bit `0x8000` is not set, refuting the
claim.  (Byte layout: 12 header bytes, 3 qname bytes, 2 qtype bytes,
then the class field at offsets 17–18.) -/
theorem C7_counterexample :
    scheduler_fire_packet "x"
      = [0, 0, 0, 0, 0, 1, 0, 0, 0, 0, 0, 0, 1, 120, 0, 0, 12, 0, 1]
    ∧ ((scheduler_fire_packet "x").getD 17 0 * 256
        + (scheduler_fire_packet "x").getD 18 0) &&& 0x8000 = 0 := by
  decide

/-- C7 amended: whenever the scheduler fires for a name, exactly one
packet is appended to the query socket's send queue, and that packet is
the default (all-zero) header with question count 1 — hence QR=0 and an
empty answer section — followed by the single question (name, type
PTR=12, class IN=1); the prefer-unicast flag is recorded on the
builder's question but never emitted, so the class field is `0x0001`
without the `0x8000` bit. -/
theorem C7_scheduler_fire_no_unicast_bit (service_name : String)
    (qsb : List (List Nat)) :
    scheduler_fire qsb service_name = qsb ++ [scheduler_fire_packet service_name]
    ∧ scheduler_fire_packet service_name
        = [0, 0, 0, 0, 0, 1, 0, 0, 0, 0, 0, 0]
          ++ qnameBytes (strBytes service_name) ++ [0, 12, 0, 1] := by
  refine ⟨rfl, ?_⟩
  simp [scheduler_fire_packet, PacketBuilder.build, PacketBuilder.new,
    PacketBuilder.add_question, PacketHeader.append_bytes, PacketHeader.default,
    Question.append_bytes, append_u16, append_qname, u16be, QueryTypePTR, QueryClassIN]
  decide

theorem opsAnswers_replicate (n : Nat) (rr : ResourceRecord) :
    opsAnswers (List.replicate n (.answer rr)) = List.replicate n rr := by
  induction n with
  | zero => rfl
  | succ k ih =>
      have e : opsAnswers (.answer rr :: List.replicate k (.answer rr))
          = rr :: opsAnswers (List.replicate k (.answer rr)) := rfl
      rw [List.replicate_succ, List.replicate_succ, e, ih]

/-- C8 counterexample: the claim as stated — after any sequence of
calls the header counts equal the list lengths — fails at 65,536
`add_answer` calls: the source's `u16` `an_count` wraps to 0 while
65,536 answers were added. -/
theorem C8_counterexample :
    (applyOps PacketBuilder.new
        (List.replicate 65536 (BuilderOp.answer ⟨"x", 4500, 0, DnsClass.IN, RData.a 0⟩))).header.an_count
        = 0
    ∧ (opsAnswers
        (List.replicate 65536 (BuilderOp.answer ⟨"x", 4500, 0, DnsClass.IN, RData.a 0⟩))).length
        = 65536
    ∧ (applyOps PacketBuilder.new
        (List.replicate 65536 (BuilderOp.answer ⟨"x", 4500, 0, DnsClass.IN, RData.a 0⟩))).header.an_count
        ≠ (opsAnswers
            (List.replicate 65536 (BuilderOp.answer ⟨"x", 4500, 0, DnsClass.IN, RData.a 0⟩))).length := by
  obtain ⟨-, -, -, han⟩ := applyOps_spec
    (List.replicate 65536 (BuilderOp.answer ⟨"x", 4500, 0, DnsClass.IN, RData.a 0⟩))
    PacketBuilder.new (by decide) (by decide)
  have hlen : (opsAnswers
      (List.replicate 65536 (BuilderOp.answer ⟨"x", 4500, 0, DnsClass.IN, RData.a 0⟩))).length
      = 65536 := by
    rw [opsAnswers_replicate, List.length_replicate]
  rw [han, hlen]
  refine ⟨?_, rfl, ?_⟩ <;> simp [PacketBuilder.new, PacketHeader.default]

/-- C8 amended: after any sequence of `add_question`/`add_answer`
calls on a fresh builder, the stored questions and answers are exactly
those added in call order, the header's `qd_count` and `an_count` equal
the two list lengths reduced modulo `2^16` (the `u16` wrap — so they
equal the lengths exactly while fewer than 65,536 of that section have
been added), and `build` emits the header bytes (carrying those counts)
followed by the questions' bytes and then the answers' bytes in
insertion order. -/
theorem C8_builder_counts_and_build (ops : List BuilderOp) :
    (applyOps PacketBuilder.new ops).questions = opsQuestions ops
    ∧ (applyOps PacketBuilder.new ops).answers = opsAnswers ops
    ∧ (applyOps PacketBuilder.new ops).header.qd_count = (opsQuestions ops).length % 65536
    ∧ (applyOps PacketBuilder.new ops).header.an_count = (opsAnswers ops).length % 65536
    ∧ (applyOps PacketBuilder.new ops).build
        = (applyOps PacketBuilder.new ops).header.append_bytes []
          ++ ((opsQuestions ops).map fun q => q.append_bytes []).flatten
          ++ ((opsAnswers ops).map fun a => a.append_bytes []).flatten := by
  obtain ⟨hq, ha, hqd, han⟩ := applyOps_spec ops PacketBuilder.new (by decide) (by decide)
  refine ⟨?_, ?_, ?_, ?_, ?_⟩
  · simpa [PacketBuilder.new] using hq
  · simpa [PacketBuilder.new] using ha
  · simpa [PacketBuilder.new, PacketHeader.default] using hqd
  · simpa [PacketBuilder.new, PacketHeader.default] using han
  · rw [PacketBuilder.build_eq, hq, ha]
    simp [PacketBuilder.new]

/-- C10: when the meta-service name is itself a member of the
advertised set, the engine's classifier takes the advertised-set branch
first and yields an ordinary `Query` event, not a `ServiceDiscovery`
event; a whole packet carrying that single question accordingly yields
exactly the `Query` event. -/
theorem C10_advertised_set_precedence (S : List String) (origin query_id : Nat)
    (h : S.contains META_QUERY_SERVICE = true) :
    classify_question S origin query_id META_QUERY_SERVICE
      = some (MdnsPacket.query META_QUERY_SERVICE origin query_id)
    ∧ parse_mdns_packets S (some ⟨true, query_id, [META_QUERY_SERVICE], 0⟩) origin
      = [MdnsPacket.query META_QUERY_SERVICE origin query_id] := by
  have hc : classify_question S origin query_id META_QUERY_SERVICE
      = some (MdnsPacket.query META_QUERY_SERVICE origin query_id) := by
    unfold classify_question
    rw [if_pos h]
  refine ⟨hc, ?_⟩
  have hp : parse_mdns_packets S (some ⟨true, query_id, [META_QUERY_SERVICE], 0⟩) origin
      = [META_QUERY_SERVICE].filterMap (classify_question S origin query_id) := rfl
  rw [hp, List.filterMap_cons_some hc]
  simp

/-- C10 witness: with the advertised set `[META_QUERY_SERVICE]`, the
meta-service question is classified as a `Query` event. -/
theorem C10_advertised_set_precedence_witness :
    classify_question [META_QUERY_SERVICE] 4 9 META_QUERY_SERVICE
      = some (MdnsPacket.query META_QUERY_SERVICE 4 9)
    ∧ parse_mdns_packets [META_QUERY_SERVICE] (some ⟨true, 9, [META_QUERY_SERVICE], 0⟩) 4
      = [MdnsPacket.query META_QUERY_SERVICE 4 9] :=
  C10_advertised_set_precedence [META_QUERY_SERVICE] 4 9 (by decide)
